import Mathlib

/-!
Verification of the retrieval-indexing and
agent-orchestration core against its natural-language specification.

The Python sources are shallowly embedded: Python dicts become association
lists with insertion-order update semantics, the file system and the external
LangChain/Chroma/LLM capabilities become explicit environment records of
functions, and every fallible operation returns `Except`/`Option` instead of
raising.  Definitions are translated from the source files named in their
doc comments.
-/

/-- Python `dict` lookup (`d.get(k)` / `d[k]`): first binding for the key in
an association list. -/
def dictGet {α : Type} : List (String × α) → String → Option α
  | [], _ => none
  | (k', v) :: rest, k => if k' = k then some v else dictGet rest k

/-- Python `k in d` membership test. -/
def dictContains {α : Type} (d : List (String × α)) (k : String) : Bool :=
  (dictGet d k).isSome

/-- Python `d[k] = v`: replace the first binding of `k` in place, or append
a new binding at the end (insertion order preserved). -/
def dictSet {α : Type} : List (String × α) → String → α → List (String × α)
  | [], k, v => [(k, v)]
  | (k', v') :: rest, k, v =>
    if k' = k then (k, v) :: rest else (k', v') :: dictSet rest k v

/-- Python `d.pop(k, None)`: remove the first binding of `k`, returning its
value (if any) and the remaining dict. -/
def dictPop {α : Type} : List (String × α) → String → Option α × List (String × α)
  | [], _ => (none, [])
  | (k', v') :: rest, k =>
    if k' = k then (some v', rest)
    else
      let r := dictPop rest k
      (r.1, (k', v') :: r.2)

/-- Number of bindings carried by a key (1 for a well-formed dict). -/
def countKey {α : Type} : List (String × α) → String → Nat
  | [], _ => 0
  | (k', _) :: rest, k => (if k' = k then 1 else 0) + countKey rest k

theorem dictGet_eq_none_iff_countKey {α : Type} (d : List (String × α)) (k : String) :
    dictGet d k = none ↔ countKey d k = 0 := by
  induction d with
  | nil => simp [dictGet, countKey]
  | cons hd tl ih =>
    obtain ⟨k', v'⟩ := hd
    by_cases h : k' = k <;> simp [dictGet, countKey, h, ih]

theorem dictGet_dictSet_self {α : Type} (d : List (String × α)) (k : String) (v : α) :
    dictGet (dictSet d k v) k = some v := by
  induction d with
  | nil => simp [dictSet, dictGet]
  | cons hd tl ih =>
    obtain ⟨k', v'⟩ := hd
    by_cases h : k' = k <;> simp [dictSet, dictGet, h, ih]

theorem dictGet_dictSet_ne {α : Type} (d : List (String × α)) (k k' : String) (v : α)
    (h : k ≠ k') : dictGet (dictSet d k v) k' = dictGet d k' := by
  induction d with
  | nil => simp [dictSet, dictGet, h]
  | cons hd tl ih =>
    obtain ⟨k₀, v₀⟩ := hd
    by_cases h₀ : k₀ = k
    · subst h₀; simp [dictSet, dictGet, h]
    · simp [dictSet, dictGet, h₀, ih]

theorem countKey_dictSet_of_get_none {α : Type} (d : List (String × α)) (k : String) (v : α)
    (h : dictGet d k = none) : countKey (dictSet d k v) k = 1 := by
  induction d with
  | nil => simp [dictSet, countKey]
  | cons hd tl ih =>
    obtain ⟨k', v'⟩ := hd
    by_cases h' : k' = k
    · simp [dictGet, h'] at h
    · simp [dictGet, h'] at h
      simp [dictSet, countKey, h', ih h]

theorem countKey_dictSet_of_get_some {α : Type} (d : List (String × α)) (k : String) (v : α)
    (h : (dictGet d k).isSome) : countKey (dictSet d k v) k = countKey d k := by
  induction d with
  | nil => simp [dictGet] at h
  | cons hd tl ih =>
    obtain ⟨k', v'⟩ := hd
    by_cases h' : k' = k
    · simp [dictSet, countKey, h']
    · simp [dictGet, h'] at h
      simp [dictSet, countKey, h', ih h]

theorem countKey_pos_of_get_some {α : Type} (d : List (String × α)) (k : String)
    (h : (dictGet d k).isSome) : 1 ≤ countKey d k := by
  by_contra hc
  have h0 : countKey d k = 0 := by omega
  rw [← dictGet_eq_none_iff_countKey] at h0
  rw [h0] at h
  simp [Option.isSome] at h

theorem dictPop_dictSet_of_get_none {α : Type} (d : List (String × α)) (k : String) (v : α)
    (h : dictGet d k = none) : dictPop (dictSet d k v) k = (some v, d) := by
  induction d with
  | nil => simp [dictSet, dictPop]
  | cons hd tl ih =>
    obtain ⟨k', v'⟩ := hd
    by_cases h' : k' = k
    · simp [dictGet, h'] at h
    · simp [dictGet, h'] at h
      simp [dictSet, dictPop, h', ih h]

theorem length_dictSet_of_get_none {α : Type} (d : List (String × α)) (k : String) (v : α)
    (h : dictGet d k = none) : (dictSet d k v).length = d.length + 1 := by
  induction d with
  | nil => simp [dictSet]
  | cons hd tl ih =>
    obtain ⟨k', v'⟩ := hd
    by_cases h' : k' = k
    · simp [dictGet, h'] at h
    · simp [dictGet, h'] at h
      simp [dictSet, h', ih h]

/-- Python truthiness of an `Optional[str]`: `None` and the empty string are
falsy, every other string is truthy. -/
def optTruthy : Option String → Bool
  | none => false
  | some s => !(s == "")

/-- Python `str()` rendering of an `Optional[str]` inside an f-string. -/
def pyStrOpt : Option String → String
  | none => "None"
  | some s => s

/-- Python `a or b` on two `Optional[str]` values. -/
def pyOr (a b : Option String) : Option String :=
  if optTruthy a then a else b

/-- A retrieved document as seen by `RetrievalService.search`: the
`file_name` metadata entry (absent modelled as `none`) and `page_content`. -/
structure SearchDoc where
  file_name : Option String
  page_content : String

/-- State of `RetrievalService` (src/services/retrieval_service.py):
`retriever_registry` maps folder keys to retriever handles (handles are
modelled as natural numbers so that identity of handles is expressible),
`vectorstore_paths` maps folder keys to persist directories. -/
structure RetrievalService where
  retriever_registry : List (String × Nat)
  vectorstore_paths : List (String × String)
  current_folder : Option String
  default_k : Nat

/-- RetrievalService.register_retriever: store both mappings, overwriting
any prior registration under the same key. -/
def RetrievalService.register_retriever (svc : RetrievalService) (folder_path : String)
    (retriever : Nat) (persist_dir : String) : RetrievalService :=
  { svc with
      retriever_registry := dictSet svc.retriever_registry folder_path retriever,
      vectorstore_paths := dictSet svc.vectorstore_paths folder_path persist_dir }

/-- RetrievalService.unregister_retriever: pop the retriever and the persist
directory, returning the popped persist directory. -/
def RetrievalService.unregister_retriever (svc : RetrievalService) (folder_path : String) :
    Option String × RetrievalService :=
  let reg := dictPop svc.retriever_registry folder_path
  let vs := dictPop svc.vectorstore_paths folder_path
  (vs.1, { svc with retriever_registry := reg.2, vectorstore_paths := vs.2 })

/-- RetrievalService.has_retriever: `folder_path in self.retriever_registry`. -/
def RetrievalService.has_retriever (svc : RetrievalService) (folder_path : String) : Bool :=
  dictContains svc.retriever_registry folder_path

/-- RetrievalService.set_current_folder. -/
def RetrievalService.set_current_folder (svc : RetrievalService) (folder_path : Option String) :
    RetrievalService :=
  { svc with current_folder := folder_path }

/-- First registered retriever: Python `next(iter(self.retriever_registry.values()))`. -/
def RetrievalService.firstRetriever (svc : RetrievalService) : Option Nat :=
  (svc.retriever_registry.head?).map (fun p => p.2)

/-- RetrievalService.get_retriever resolution: explicit argument (if truthy),
then the remembered current folder (if truthy and registered), then an
arbitrary (first) registered retriever, else `none`. -/
def RetrievalService.get_retriever (svc : RetrievalService) (folder_path : Option String) :
    Option Nat :=
  if optTruthy folder_path then dictGet svc.retriever_registry (pyStrOpt folder_path)
  else if optTruthy svc.current_folder &&
      dictContains svc.retriever_registry (pyStrOpt svc.current_folder) then
    dictGet svc.retriever_registry (pyStrOpt svc.current_folder)
  else svc.firstRetriever

/-- Formatting of one retrieved document in `search` results. -/
def formatSearchDoc (i : Nat) (d : SearchDoc) : String :=
  "📄 Doc " ++ toString (i + 1) ++ " (" ++ (d.file_name.getD "unknown") ++ "):\n" ++
    (d.page_content.take 500) ++ "\n"

/-- RetrievalService.search.  The underlying `retriever.invoke(query)` is an
external capability passed as `invoke`; `Except.error e` models the query
raising an exception with message `e`.  Every branch of the Python function
returns a string; the embedding is a total Lean function into `String`,
so it can neither raise nor return `None`. -/
def RetrievalService.search (svc : RetrievalService)
    (invoke : Nat → String → Except String (List SearchDoc))
    (query : String) (k : Nat) (folder_path : Option String) : String :=
  if svc.retriever_registry.isEmpty then
    "❌ No indexed folder. Index a folder first."
  else
    match svc.get_retriever folder_path with
    | none => "❌ No retriever found for folder: " ++ pyStrOpt (pyOr folder_path svc.current_folder)
    | some retriever =>
      match invoke retriever query with
      | Except.error e => "❌ Search error: " ++ e
      | Except.ok alldocs =>
        let docs := alldocs.take k
        if docs.isEmpty then
          "❌ No relevant documents for: \x27" ++ query ++ "\x27"
        else
          String.intercalate "\n---\n" (docs.enum.map (fun p => formatSearchDoc p.1 p.2))

/-- RetrievalService.clear. -/
def RetrievalService.clear (svc : RetrievalService) : RetrievalService :=
  { svc with retriever_registry := [], vectorstore_paths := [], current_folder := none }

/-- A loaded LangChain document: its `source` metadata plus the metadata
fields written by `normalize_document_metadata`, and its text content. -/
structure Document where
  source : String
  file_name : String
  file_path : String
  indexed_at : String
  content : String

/-- The set of directories currently present on disk under the vectorstore
root (one entry per persisted vector store). -/
def diskAdd (p : String) (disk : List String) : List String :=
  if p ∈ disk then disk else p :: disk

/-- Removal of a directory from the on-disk set (shutil.rmtree). -/
def diskRemove : List String → String → List String
  | [], _ => []
  | d :: rest, p => if d = p then rest else d :: diskRemove rest p

/-- IndexingService.remove_vectorstore (src/services/indexing_service.py,
lines 324-332): if the persist directory exists, attempt `shutil.rmtree`
and return True on success; a raising rmtree is caught (`rmtreeOk p =
false` models the exception), False is returned and the directory is left
on disk; a missing directory also yields False.  Never raises. -/
def IndexingService.remove_vectorstore (rmtreeOk : String → Bool) (disk : List String)
    (persist_dir : String) : Bool × List String :=
  if persist_dir ∈ disk then
    if rmtreeOk persist_dir then (true, diskRemove disk persist_dir) else (false, disk)
  else (false, disk)

/-- Environment of `Sidekick.index_directory`: the path utilities
(src/utils/path_utils.py), the document loaders, the chunk splitter and the
Chroma/embedding backend of IndexingService, all of which consult the file
system or external libraries.  `chunkDocuments` returning `Except.error e`
models `RecursiveCharacterTextSplitter` raising; `createOk = false` models
`Chroma.from_documents` raising (in which case the partially created persist
directory is cleaned up again); `freshPersistDir dir` is the
`basename(dir) + uuid suffix` persist location allocated by
`create_vectorstore`; `rmtreeOk p = false` models `shutil.rmtree p`
raising inside `remove_vectorstore` (the exception is caught there and the
directory stays on disk). -/
structure IndexEnv where
  normalizePath : String → String
  getAbsolutePath : String → String
  validateDirectory : String → Bool
  pathExists : String → Bool
  basename : String → String
  now : String
  loadDocuments : String → List Document
  chunkDocuments : List Document → Nat → Nat → Except String (List Document)
  createOk : Bool
  freshPersistDir : String → String
  rmtreeOk : String → Bool

/-- IndexingService.normalize_document_metadata: fill in file_name /
file_path / indexed_at; a document whose source is empty or does not exist
is kept but its file_name defaults to "unknown" when unset. -/
def IndexingService.normalize_document_metadata (env : IndexEnv) (docs : List Document) :
    List Document :=
  docs.map fun doc =>
    let src := env.normalizePath doc.source
    if src = "" ∨ env.pathExists src = false then
      { doc with
          file_name := if doc.file_name = "" then "unknown" else doc.file_name,
          file_path := src,
          indexed_at := env.now }
    else
      { doc with file_name := env.basename src, file_path := src, indexed_at := env.now }

/-- IndexingService.create_vectorstore: allocate a fresh persist directory
and embed the chunks there; on failure the directory is removed again and
`none` is returned. -/
def IndexingService.create_vectorstore (env : IndexEnv) (disk : List String)
    (directory_name : String) : Option String × List String :=
  if env.createOk then
    (some (env.freshPersistDir directory_name), diskAdd (env.freshPersistDir directory_name) disk)
  else (none, disk)

/-- State owned by the core `Sidekick` coordinator
(src/core/sidekick.py) together with the on-disk artifacts it manages:
the RetrievalService registry, the manifest file contents
(folder key to persist dir), the set of persist directories on disk, and a
counter minting fresh retriever handles (each `vectorstore.as_retriever`
call yields a new handle object). -/
structure SidekickM where
  retrieval : RetrievalService
  manifest : List (String × String)
  disk : List String
  nextHandle : Nat

/-- The force_reindex branch of Sidekick.index_directory: unregister the
retriever and, if a persist directory was registered, attempt to delete it
from disk.  The Boolean result of remove_vectorstore is discarded by the
caller, exactly as in the source, so a failed deletion is silent here. -/
def Sidekick.force_clear (env : IndexEnv) (st : SidekickM) (folder_key : String)
    (force : Bool) : SidekickM :=
  if force then
    match st.retrieval.unregister_retriever folder_key with
    | (some persist_dir, svc) =>
      { st with
          retrieval := svc,
          disk := (IndexingService.remove_vectorstore env.rmtreeOk st.disk persist_dir).2 }
    | (none, svc) => { st with retrieval := svc }
  else st

/-- The load / normalize / chunk / create / register / manifest-update tail
of Sidekick.index_directory, entered after validation, the already-indexed
short-circuit, and the optional force-clear. -/
def Sidekick.index_directory_body (env : IndexEnv) (st : SidekickM)
    (directory folder_key : String) (chunk_size chunk_overlap : Nat) : String × SidekickM :=
  if (env.loadDocuments directory).isEmpty then
    ("❌ No readable documents found", st)
  else
    let valid_docs := IndexingService.normalize_document_metadata env (env.loadDocuments directory)
    match env.chunkDocuments valid_docs chunk_size chunk_overlap with
    | Except.error e => ("[ERROR] Error during chunk splitting: " ++ e, st)
    | Except.ok chunks =>
      match IndexingService.create_vectorstore env st.disk directory with
      | (none, disk') => ("[ERROR] Failed to create vectorstore", { st with disk := disk' })
      | (some persist_dir, disk') =>
        ("✅ Indexed " ++ toString chunks.length ++ " chunks from " ++
            toString valid_docs.length ++ " documents",
          { st with
              retrieval := st.retrieval.register_retriever folder_key st.nextHandle persist_dir,
              manifest := dictSet st.manifest folder_key persist_dir,
              disk := disk',
              nextHandle := st.nextHandle + 1 })

/-- Sidekick.index_directory (src/core/sidekick.py, lines 158-230):
normalize, validate, short-circuit when already registered and not forcing,
clear old data when forcing, then run the indexing tail. -/
def Sidekick.index_directory (env : IndexEnv) (st : SidekickM) (directory : String)
    (force_reindex : Bool) (chunk_size chunk_overlap : Nat) : String × SidekickM :=
  if env.validateDirectory (env.normalizePath directory) = false then
    ("[ERROR] Invalid directory: " ++ env.normalizePath directory, st)
  else if (st.retrieval.has_retriever (env.getAbsolutePath (env.normalizePath directory))
      && !force_reindex) = true then
    ("[INFO] Already indexed: " ++ env.normalizePath directory, st)
  else
    Sidekick.index_directory_body env
      (Sidekick.force_clear env st (env.getAbsolutePath (env.normalizePath directory)) force_reindex)
      (env.normalizePath directory)
      (env.getAbsolutePath (env.normalizePath directory))
      chunk_size chunk_overlap

/-- Sidekick.remove_directory (src/core/sidekick.py, lines 232-247). -/
def Sidekick.remove_directory (env : IndexEnv) (st : SidekickM) (directory : String) :
    String × SidekickM :=
  let folder_key := env.getAbsolutePath (env.normalizePath directory)
  let st₁ := Sidekick.force_clear env st folder_key true
  let st₂ :=
    if dictContains st₁.manifest folder_key then
      { st₁ with manifest := (dictPop st₁.manifest folder_key).2 }
    else st₁
  ("🗑️ Removed folder index: " ++ env.normalizePath directory, st₂)

/-- Environment of the startup bootstrap: whether
`IndexingService.load_vectorstore persist_dir` succeeds (it returns None when
the directory is missing or Chroma fails to open it). -/
structure BootstrapEnv where
  loadOk : String → Bool

/-- The per-entry loop of Sidekick._bootstrap_retrievers_from_manifest:
entries whose vector store cannot be reloaded are skipped (logged), all
others get a freshly minted retriever registered; exceptions are caught per
entry, so the loop is total. -/
def Sidekick.bootstrap_loop (env : BootstrapEnv) :
    RetrievalService → Nat → List (String × String) → RetrievalService × Nat
  | svc, next, [] => (svc, next)
  | svc, next, (folder_key, persist_dir) :: rest =>
    if env.loadOk persist_dir then
      Sidekick.bootstrap_loop env (svc.register_retriever folder_key next persist_dir) (next + 1) rest
    else Sidekick.bootstrap_loop env svc next rest

/-- Sidekick._bootstrap_retrievers_from_manifest (src/core/sidekick.py,
lines 99-124): replay every manifest entry against the disk. -/
def Sidekick.bootstrap_retrievers_from_manifest (env : BootstrapEnv) (st : SidekickM) :
    SidekickM :=
  if st.manifest.isEmpty then st
  else
    let r := Sidekick.bootstrap_loop env st.retrieval st.nextHandle st.manifest
    { st with retrieval := r.1, nextHandle := r.2 }

/-- LangChain message kinds occurring in the graph. -/
inductive MsgType
  | human
  | ai
  | system
  | tool
deriving DecidableEq

/-- A LangChain message as consumed by the graph code.  `tool_calls_attr`
records whether the object has a `tool_calls` attribute at all (Python
`hasattr`); `tool_calls` is its value when present (each entry one
requested tool call). -/
structure Message where
  mtype : MsgType
  content : String
  tool_calls_attr : Bool
  tool_calls : List String
deriving DecidableEq

def mkHumanMessage (content : String) : Message :=
  ⟨MsgType.human, content, false, []⟩

/-- An AIMessage always carries a (possibly empty) `tool_calls` attribute. -/
def mkAIMessage (content : String) (tool_calls : List String) : Message :=
  ⟨MsgType.ai, content, true, tool_calls⟩

def mkSystemMessage (content : String) : Message :=
  ⟨MsgType.system, content, false, []⟩

/-- The agent state of src/core/state.py (`SidekickState`).  Its pydantic
fields, minus the free-form `task_metadata` dict, which no graph code reads
or writes.  Note that this class declares NO `evaluation_history` field;
the duplicated variant in src/state.py does (see the field-name lists
below). -/
structure SidekickState where
  messages : List Message
  thread_id : String
  session_id : String
  success_criteria : Option String
  current_directory : Option String
  indexed_directories : List String
  criteria_met : Bool
  needs_user_input : Bool
deriving DecidableEq

/-- Structured output schema of the evaluator LLM (`EvaluatorOutput`,
src/state.py / src/models/output_models.py). -/
structure EvaluatorOutput where
  feedback : String
  success_criteria_met : Bool
  user_input_needed : Bool
  confidence : Rat
deriving DecidableEq

/-- One record of the evaluation history: the structured result
(`model_dump()`) plus the timestamp added by the evaluator node. -/
structure EvalRecord where
  result : EvaluatorOutput
  timestamp : String
deriving DecidableEq

/-- The dict returned by a graph node: the state keys it updates.  `none`
for the two flags means the node did not mention that key. -/
structure NodeUpdate where
  messages : List Message
  evaluation_history : List EvalRecord
  criteria_met : Option Bool
  needs_user_input : Option Bool

/-- Scripted external capabilities of the graph: the (tool-bound) worker
LLM, the structured-output evaluator LLM, the per-call tool dispatcher of
ToolNode, and the two clock readings used in prompts and timestamps. -/
structure GraphEnv where
  workerResponse : List Message → Message
  evaluatorResponse : List Message → EvaluatorOutput
  toolResult : String → Message
  now : String
  nowIso : String

/-- Python `s or default` for the success-criteria strings in prompts. -/
def pyOrStr (o : Option String) (default : String) : String :=
  match o with
  | some s => if s = "" then default else s
  | none => default

/-- System prompt built by the worker node (src/core/graph.py, worker_node). -/
def GraphBuilder.worker_system_content (env : GraphEnv) (s : SidekickState) : String :=
  "You are a helpful assistant with tool access.\n\n**Success criteria:** " ++
    pyOrStr s.success_criteria "Provide a clear, correct answer." ++
    "\n\n**Available tools:**\n- search_documents: search indexed documents\n\n**Current time:** " ++
    env.now ++ "\n\nUse tools when you need external information. Be concise."

/-- GraphBuilder.worker_node: prepend the system message to the history,
invoke the tool-bound worker LLM, and return its single response message. -/
def GraphBuilder.worker_node (env : GraphEnv) (s : SidekickState) : NodeUpdate :=
  ⟨[env.workerResponse
      (mkSystemMessage (GraphBuilder.worker_system_content env s) :: s.messages)],
    [], none, none⟩

/-- Python `messages[-6:]`: the trailing window of at most six messages. -/
def lastSix (msgs : List Message) : List Message :=
  msgs.drop (msgs.length - 6)

/-- The conversation context string built by the evaluator node. -/
def GraphBuilder.conversation_window (msgs : List Message) : String :=
  String.intercalate "\n"
    ((lastSix msgs).map fun m =>
      (if m.mtype = MsgType.human then "User" else "Assistant") ++ ": " ++ m.content)

/-- Python `state.messages[-1].content if state.messages else ""`. -/
def lastContent (msgs : List Message) : String :=
  ((msgs.getLast?).map Message.content).getD ""

/-- The evaluation prompt built by the evaluator node. -/
def GraphBuilder.eval_prompt (s : SidekickState) : String :=
  "Evaluate the conversation:\n\n" ++ GraphBuilder.conversation_window s.messages ++
    "\n\nLast response:\n" ++ lastContent s.messages ++
    "\n\nSuccess criteria:\n" ++ pyOrStr s.success_criteria "Provide clear and correct answer." ++
    "\n\nAnswer whether the response meets the criteria, whether more user info is required, and provide brief feedback."

/-- The structured result produced inside the evaluator node. -/
def GraphBuilder.evaluator_result (env : GraphEnv) (s : SidekickState) : EvaluatorOutput :=
  env.evaluatorResponse
    [mkSystemMessage "You are an objective AI evaluator.",
      mkHumanMessage (GraphBuilder.eval_prompt s)]

/-- GraphBuilder.evaluator_node (src/core/graph.py, lines 38-69): one
marker-prefixed assistant message, the two flags from the structured result,
and one timestamped evaluation-history record. -/
def GraphBuilder.evaluator_node (env : GraphEnv) (s : SidekickState) : NodeUpdate :=
  let r := GraphBuilder.evaluator_result env s
  ⟨[mkAIMessage ("💭 Evaluation: " ++ r.feedback) []],
    [⟨r, env.nowIso⟩],
    some r.success_criteria_met,
    some r.user_input_needed⟩

/-- ToolNode dispatch: one tool-result message per tool call carried by the
latest message, in request order. -/
def GraphBuilder.tools_node (env : GraphEnv) (s : SidekickState) : NodeUpdate :=
  ⟨(((s.messages.getLast?).map Message.tool_calls).getD []).map env.toolResult, [], none, none⟩

/-- Application of the dict returned by a node to the core SidekickState.  The
`messages` channel appends (add_messages); the two Boolean flags are plain
overwrites when present.  The `evaluation_history` key of the update has no
corresponding field in the SidekickState of src/core/state.py, so its content
cannot be stored in the state at all (see claim C9). -/
def applyUpdate (s : SidekickState) (u : NodeUpdate) : SidekickState :=
  { s with
      messages := s.messages ++ u.messages,
      criteria_met := u.criteria_met.getD s.criteria_met,
      needs_user_input := u.needs_user_input.getD s.needs_user_input }

/-- GraphBuilder.should_continue (src/core/graph.py, lines 73-78):
route to "tools" iff the last message has a `tool_calls` attribute AND its
list is non-empty (Python truthiness); `none` models the IndexError on an
empty message list. -/
def GraphBuilder.should_continue (s : SidekickState) : Option String :=
  (s.messages.getLast?).map fun m =>
    if m.tool_calls_attr && !m.tool_calls.isEmpty then "tools" else "evaluator"

/-- Sidekick.should_continue of the duplicated variant
(src/sidekick.py, lines 332-336); textually the same test. -/
def VariantSidekick.should_continue (s : SidekickState) : Option String :=
  (s.messages.getLast?).map fun m =>
    if m.tool_calls_attr && !m.tool_calls.isEmpty then "tools" else "evaluator"

/-- The conditional-edge lambda of build_graph (src/graph_builder.py,
line 11): it routes to "tools" whenever the last message merely HAS a
`tool_calls` attribute, never inspecting whether the list is empty. -/
def build_graph_worker_route (s : SidekickState) : Option String :=
  (s.messages.getLast?).map fun m =>
    if m.tool_calls_attr then "tools" else "evaluator"

/-- GraphBuilder.should_end (src/core/graph.py, lines 80-84). -/
def GraphBuilder.should_end (s : SidekickState) : String :=
  if s.criteria_met || s.needs_user_input then "end" else "worker"

/-- One step of the compiled core graph (GraphBuilder.build,
src/core/graph.py lines 88-111): run the node, apply its update, and follow
the outgoing edge — the conditional edges from "worker" and "evaluator",
and the unconditional `add_edge("tools", "worker")`.  `none` models a crash
inside a node/edge function. -/
def coreGraphStep (env : GraphEnv) (node : String) (s : SidekickState) :
    Option (String × SidekickState) :=
  if node = "worker" then
    let s' := applyUpdate s (GraphBuilder.worker_node env s)
    (GraphBuilder.should_continue s').map fun r => (r, s')
  else if node = "tools" then
    some ("worker", applyUpdate s (GraphBuilder.tools_node env s))
  else if node = "evaluator" then
    let s' := applyUpdate s (GraphBuilder.evaluator_node env s)
    some (GraphBuilder.should_end s', s')
  else none

/-- Execution of the compiled graph from a node, with fuel bounding the
number of steps; returns the sequence of node names executed and the final
state.  The entry edge is `add_edge(START, "worker")`, so a run starts at
"worker"; reaching "end" terminates. -/
def runCoreGraph (env : GraphEnv) : Nat → String → SidekickState → List String × SidekickState
  | 0, _, s => ([], s)
  | Nat.succ fuel, node, s =>
    if node = "end" then ([], s)
    else
      match coreGraphStep env node s with
      | none => ([node], s)
      | some (next, s') =>
        let r := runCoreGraph env fuel next s'
        (node :: r.1, r.2)

/-- Python `s.startswith(pre)`, computed on the character lists. -/
def pyStartsWith (s pre : String) : Bool :=
  pre.data.isPrefixOf s.data

/-- The final-answer extraction of Sidekick.run (src/core/sidekick.py,
lines 380-385): the latest AIMessage whose content does not start with the
evaluation marker, else a fallback string. -/
def Sidekick.extract_final_answer (msgs : List Message) : String :=
  match msgs.reverse.find? (fun m =>
      decide (m.mtype = MsgType.ai) && !(pyStartsWith m.content "💭")) with
  | some m => m.content
  | none => "No response generated"

/-- The parameters of GraphBuilder.__init__ (src/core/graph.py, line 15),
in declaration order; all are required positional parameters. -/
def GraphBuilder.init_params : List String :=
  ["worker_llm", "evaluator_llm", "tools", "memory"]

/-- The keyword arguments with which Sidekick._build_graph_with_tools
(src/core/sidekick.py, lines 137-141) instantiates GraphBuilder. -/
def Sidekick.build_graph_with_tools_kwargs : List String :=
  ["worker_llm", "tools", "memory"]

/-- The pydantic fields of SidekickState in src/core/state.py (lines 7-25),
in declaration order. -/
def core_state_fields : List String :=
  ["messages", "thread_id", "session_id", "success_criteria", "task_metadata",
    "current_directory", "indexed_directories", "criteria_met", "needs_user_input"]

/-- The pydantic fields of SidekickState in the duplicated variant
src/state.py (lines 7-25). -/
def variant_state_fields : List String :=
  ["messages", "thread_id", "session_id", "success_criteria", "task_metadata",
    "current_directory", "indexed_directories", "evaluation_history",
    "criteria_met", "needs_user_input"]

/-- The keys of the dict returned by GraphBuilder.evaluator_node
(src/core/graph.py, lines 64-69). -/
def evaluator_node_update_keys : List String :=
  ["evaluation_history", "criteria_met", "needs_user_input", "messages"]

/-- Environment of the path helpers: os.path.normpath, os.path.abspath and
os.path.isfile as observed at one instant of the file system. -/
structure PathEnv where
  normalizePath : String → String
  getAbsolutePath : String → String
  isfile : String → Bool

/-- The absolute path computed inside _make_index_key. -/
def PathEnv.absOf (env : PathEnv) (path : String) : String :=
  env.getAbsolutePath (env.normalizePath path)

/-- The function _make_index_key (src/services/folder_service.py, lines 8-17): the
IndexKey of a path — the absolute path itself for a directory, the
absolute path tagged with a FILE marker for a single file. -/
def FolderService.make_index_key (env : PathEnv) (path : String) : String :=
  if env.isfile (env.absOf path) then "FILE::" ++ env.absOf path
  else env.absOf path

/-- The methods defined on the core coordinator class `Sidekick`
(src/core/sidekick.py), i.e. the attribute names a `Sidekick` instance
resolves (plus its data attributes, none of which is named index_path or
remove_path either: sidekick_id, worker_llm, indexing_service,
retrieval_service, memory, graph, all_tools, tools). -/
def Sidekick.method_names : List String :=
  ["__init__", "_load_index_manifest", "_save_index_manifest",
    "_bootstrap_retrievers_from_manifest", "_build_graph_with_tools", "setup",
    "index_directory", "remove_directory", "run", "cleanup"]

/-- Python attribute lookup `sidekick.<name>` on the core Sidekick:
`none` models the AttributeError raised for a missing attribute. -/
def Sidekick.getattr (name : String) : Option String :=
  if name ∈ Sidekick.method_names then some name else none

/-- Environment of one FolderService call: whether the selected path exists
(os.path.isdir or os.path.isfile) and whether its IndexKey already has a
live retriever registration. -/
structure FolderEnv where
  pathExists : Bool
  hasRetriever : Bool

/-- FolderService.ensure_indexed (src/services/folder_service.py,
lines 28-63): validate the path, then — unless the key is already
registered — call `self.sidekick.index_path`; looking up that attribute on
the core Sidekick raises AttributeError. -/
def FolderService.ensure_indexed (env : FolderEnv) : Except String Unit :=
  if env.pathExists = false then Except.error "ValueError: Path does not exist"
  else if env.hasRetriever then Except.ok ()
  else
    match Sidekick.getattr "index_path" with
    | some _ => Except.ok ()
    | none => Except.error "AttributeError: index_path"

/-- FolderService.reindex_folder (lines 65-92): validate, then always call
`self.sidekick.index_path` with force_reindex=True. -/
def FolderService.reindex_folder (env : FolderEnv) : Except String Unit :=
  if env.pathExists = false then Except.error "ValueError: Path does not exist"
  else
    match Sidekick.getattr "index_path" with
    | some _ => Except.ok ()
    | none => Except.error "AttributeError: index_path"

/-- FolderService.clear_folder (lines 94-106): validate, then call
`self.sidekick.remove_path`. -/
def FolderService.clear_folder (env : FolderEnv) : Except String Unit :=
  if env.pathExists = false then Except.error "ValueError: Path does not exist"
  else
    match Sidekick.getattr "remove_path" with
    | some _ => Except.ok ()
    | none => Except.error "AttributeError: remove_path"

theorem dictPop_fst {α : Type} (d : List (String × α)) (k : String) :
    (dictPop d k).1 = dictGet d k := by
  induction d with
  | nil => simp [dictPop, dictGet]
  | cons hd tl ih =>
    obtain ⟨k', v'⟩ := hd
    by_cases h : k' = k <;> simp [dictPop, dictGet, h, ih]

theorem file_tag_ne (s : String) : "FILE::" ++ s ≠ s := by
  intro h
  have hlen := congrArg String.length h
  rw [String.length_append] at hlen
  have h6 : ("FILE::" : String).length = 6 := rfl
  omega

/-- Claim C3: RetrievalService.search never raises and never returns None —
the embedding is a total function into String.  On an empty registry it
returns the fixed string containing the "No indexed" marker; when no
retriever matches the resolved key it returns a "No retriever found"
string; and when the underlying retriever query raises, the exception is
caught and an error-marker string is returned instead of propagating. -/
theorem C3_search_total_and_marked (svc : RetrievalService)
    (invoke : Nat → String → Except String (List SearchDoc))
    (query : String) (k : Nat) (folder_path : Option String) :
    (svc.retriever_registry = [] →
      svc.search invoke query k folder_path = "❌ No indexed folder. Index a folder first." ∧
      ∃ pre post, svc.search invoke query k folder_path = pre ++ "No indexed" ++ post) ∧
    (svc.retriever_registry ≠ [] → svc.get_retriever folder_path = none →
      ∃ suffix, svc.search invoke query k folder_path =
        "❌ No retriever found for folder: " ++ suffix) ∧
    (∀ r e, svc.retriever_registry ≠ [] → svc.get_retriever folder_path = some r →
      invoke r query = Except.error e →
      svc.search invoke query k folder_path = "❌ Search error: " ++ e) := by
  refine ⟨?_, ?_, ?_⟩
  · intro h
    have hs : svc.search invoke query k folder_path =
        "❌ No indexed folder. Index a folder first." := by
      simp [RetrievalService.search, h]
    exact ⟨hs, "❌ ", " folder. Index a folder first.", by rw [hs]; rfl⟩
  · intro hne hget
    have hE : svc.retriever_registry.isEmpty = false := by
      cases hc : svc.retriever_registry with
      | nil => exact absurd hc hne
      | cons a l => rfl
    exact ⟨pyStrOpt (pyOr folder_path svc.current_folder),
      by simp [RetrievalService.search, hE, hget]⟩
  · intro r e hne hget hinv
    have hE : svc.retriever_registry.isEmpty = false := by
      cases hc : svc.retriever_registry with
      | nil => exact absurd hc hne
      | cons a l => rfl
    simp [RetrievalService.search, hE, hget, hinv]

theorem C3_search_witness :
    (RetrievalService.search ⟨[], [], none, 5⟩ (fun _ _ => Except.error "boom") "q" 5 none =
      "❌ No indexed folder. Index a folder first.") ∧
    (∃ suffix, RetrievalService.search ⟨[("A", 0)], [("A", "pA")], none, 5⟩
        (fun _ _ => Except.error "boom") "q" 5 (some "B") =
      "❌ No retriever found for folder: " ++ suffix) ∧
    (RetrievalService.search ⟨[("A", 0)], [("A", "pA")], none, 5⟩
        (fun _ _ => Except.error "boom") "q" 5 (some "A") = "❌ Search error: boom") :=
  ⟨((C3_search_total_and_marked _ _ _ _ _).1 rfl).1,
    (C3_search_total_and_marked _ _ _ _ _).2.1 (by decide) (by decide),
    (C3_search_total_and_marked _ _ _ _ _).2.2 0 "boom" (by decide) (by decide) rfl⟩

/-- Claim C8: the IndexKey of a path is a deterministic function of the
absolute path (and of whether that absolute path is a file), so computing
it twice — including across process restarts observing the same file
system — yields the same key; and the key computed while the absolute path
names a file carries the FILE tag and therefore always differs from the
key computed while it names a directory. -/
theorem C8_index_key_stable_and_tagged :
    (∀ env env' : PathEnv, ∀ p p' : String,
      env.absOf p = env'.absOf p' →
      env.isfile (env.absOf p) = env'.isfile (env'.absOf p') →
      FolderService.make_index_key env p = FolderService.make_index_key env' p') ∧
    (∀ env env' : PathEnv, ∀ p p' : String,
      env.absOf p = env'.absOf p' →
      env.isfile (env.absOf p) = true →
      env'.isfile (env'.absOf p') = false →
      FolderService.make_index_key env p ≠ FolderService.make_index_key env' p') := by
  constructor
  · intro env env' p p' habs hfile
    rw [FolderService.make_index_key, FolderService.make_index_key, hfile, habs]
  · intro env env' p p' habs hf hf'
    have h1 : FolderService.make_index_key env p = "FILE::" ++ env.absOf p := by
      simp [FolderService.make_index_key, hf]
    have h2 : FolderService.make_index_key env' p' = env'.absOf p' := by
      simp [FolderService.make_index_key, hf']
    rw [h1, h2, habs]
    exact file_tag_ne _

theorem C8_index_key_witness :
    (FolderService.make_index_key ⟨id, id, fun _ => true⟩ "/a" =
      FolderService.make_index_key ⟨id, id, fun _ => true⟩ "/a") ∧
    (FolderService.make_index_key ⟨id, id, fun _ => true⟩ "/a" ≠
      FolderService.make_index_key ⟨id, id, fun _ => false⟩ "/a") :=
  ⟨C8_index_key_stable_and_tagged.1 _ _ "/a" "/a" rfl rfl,
    C8_index_key_stable_and_tagged.2 _ _ "/a" "/a" rfl rfl rfl⟩

/-- Claim C10: FolderService.ensure_indexed and reindex_folder call
Sidekick.index_path, and clear_folder calls Sidekick.remove_path, but the
core Sidekick coordinator defines only index_directory and
remove_directory, so for an existing path whose IndexKey has no retriever
registration each of the three operations raises an attribute-lookup error
instead of indexing or removing the path. -/
theorem C10_folder_service_attribute_errors (env : FolderEnv)
    (hpath : env.pathExists = true) (hreg : env.hasRetriever = false) :
    "index_path" ∉ Sidekick.method_names ∧
    "remove_path" ∉ Sidekick.method_names ∧
    "index_directory" ∈ Sidekick.method_names ∧
    "remove_directory" ∈ Sidekick.method_names ∧
    FolderService.ensure_indexed env = Except.error "AttributeError: index_path" ∧
    FolderService.reindex_folder env = Except.error "AttributeError: index_path" ∧
    FolderService.clear_folder env = Except.error "AttributeError: remove_path" := by
  refine ⟨by decide, by decide, by decide, by decide, ?_, ?_, ?_⟩
  · rw [FolderService.ensure_indexed, hpath, hreg]
    rfl
  · rw [FolderService.reindex_folder, hpath]
    rfl
  · rw [FolderService.clear_folder, hpath]
    rfl

theorem C10_folder_service_witness :
    FolderService.ensure_indexed ⟨true, false⟩ = Except.error "AttributeError: index_path" ∧
    FolderService.clear_folder ⟨true, false⟩ = Except.error "AttributeError: remove_path" :=
  ⟨(C10_folder_service_attribute_errors ⟨true, false⟩ rfl rfl).2.2.2.2.1,
    (C10_folder_service_attribute_errors ⟨true, false⟩ rfl rfl).2.2.2.2.2.2⟩

/-- Claim C1: calling Sidekick.index_directory without force_reindex on a
valid directory whose IndexKey already has a live retriever registration
returns the "already indexed" status string and performs no mutation at
all — the returned state is the input state, so the retriever
registration, the vectorstore_paths entry and the manifest are unchanged,
and the registered retriever handle afterwards is the same handle as
before the call. -/
theorem C1_idempotent_indexing (env : IndexEnv) (st : SidekickM) (directory : String)
    (cs co : Nat)
    (hval : env.validateDirectory (env.normalizePath directory) = true)
    (hreg : st.retrieval.has_retriever (env.getAbsolutePath (env.normalizePath directory)) = true) :
    Sidekick.index_directory env st directory false cs co =
      ("[INFO] Already indexed: " ++ env.normalizePath directory, st) ∧
    (Sidekick.index_directory env st directory false cs co).2.retrieval.retriever_registry =
      st.retrieval.retriever_registry ∧
    (Sidekick.index_directory env st directory false cs co).2.retrieval.vectorstore_paths =
      st.retrieval.vectorstore_paths ∧
    (Sidekick.index_directory env st directory false cs co).2.manifest = st.manifest ∧
    dictGet (Sidekick.index_directory env st directory false cs co).2.retrieval.retriever_registry
        (env.getAbsolutePath (env.normalizePath directory)) =
      dictGet st.retrieval.retriever_registry
        (env.getAbsolutePath (env.normalizePath directory)) := by
  have h : Sidekick.index_directory env st directory false cs co =
      ("[INFO] Already indexed: " ++ env.normalizePath directory, st) := by
    simp [Sidekick.index_directory, hval, hreg]
  exact ⟨h, by rw [h], by rw [h], by rw [h], by rw [h]⟩

theorem C1_idempotent_indexing_witness :
    Sidekick.index_directory
      ⟨id, id, fun _ => true, fun _ => true, id, "t",
        fun _ => [⟨"/a/f.txt", "", "", "", "hello"⟩],
        fun ds _ _ => Except.ok ds, true, fun _ => "vdb1", fun _ => true⟩
      ⟨⟨[("/a", 7)], [("/a", "p0")], none, 5⟩, [("/a", "p0")], ["p0"], 1⟩
      "/a" false 600 20 =
      ("[INFO] Already indexed: /a",
        ⟨⟨[("/a", 7)], [("/a", "p0")], none, 5⟩, [("/a", "p0")], ["p0"], 1⟩) :=
  (C1_idempotent_indexing _ _ "/a" 600 20 rfl (by decide)).1

/-- Claim C7: a call of Sidekick.index_directory with force_reindex=False
on an invalid path, or on a valid unregistered path yielding zero loadable
documents, returns an error string and has no side effects — the state
(registry, vectorstore_paths, disk and manifest) is returned untouched. -/
theorem C7_failed_indexing_no_side_effects (env : IndexEnv) (st : SidekickM)
    (directory : String) (cs co : Nat) :
    (env.validateDirectory (env.normalizePath directory) = false →
      Sidekick.index_directory env st directory false cs co =
        ("[ERROR] Invalid directory: " ++ env.normalizePath directory, st)) ∧
    (env.validateDirectory (env.normalizePath directory) = true →
      st.retrieval.has_retriever (env.getAbsolutePath (env.normalizePath directory)) = false →
      (env.loadDocuments (env.normalizePath directory)).isEmpty = true →
      Sidekick.index_directory env st directory false cs co =
        ("❌ No readable documents found", st)) := by
  constructor
  · intro hval
    simp [Sidekick.index_directory, hval]
  · intro hval hreg hdocs
    simp [Sidekick.index_directory, hval, hreg, Sidekick.force_clear,
      Sidekick.index_directory_body, hdocs]

theorem C7_failed_indexing_witness :
    (Sidekick.index_directory
        ⟨id, id, fun _ => false, fun _ => true, id, "t", fun _ => [],
          fun ds _ _ => Except.ok ds, true, fun _ => "vdb1", fun _ => true⟩
        ⟨⟨[], [], none, 5⟩, [("k", "p")], ["p"], 0⟩ "/missing" false 600 20 =
      ("[ERROR] Invalid directory: /missing", ⟨⟨[], [], none, 5⟩, [("k", "p")], ["p"], 0⟩)) ∧
    (Sidekick.index_directory
        ⟨id, id, fun _ => true, fun _ => true, id, "t", fun _ => [],
          fun ds _ _ => Except.ok ds, true, fun _ => "vdb1", fun _ => true⟩
        ⟨⟨[], [], none, 5⟩, [("k", "p")], ["p"], 0⟩ "/empty" false 600 20 =
      ("❌ No readable documents found", ⟨⟨[], [], none, 5⟩, [("k", "p")], ["p"], 0⟩)) :=
  ⟨(C7_failed_indexing_no_side_effects _ _ "/missing" 600 20).1 rfl,
    (C7_failed_indexing_no_side_effects _ _ "/empty" 600 20).2 rfl (by decide) rfl⟩

theorem bootstrap_loop_length (env : BootstrapEnv) (entries : List (String × String)) :
    ∀ svc : RetrievalService, ∀ next : Nat,
    (∀ e ∈ entries, dictGet svc.retriever_registry e.1 = none) →
    (entries.map Prod.fst).Nodup →
    (Sidekick.bootstrap_loop env svc next entries).1.retriever_registry.length =
      svc.retriever_registry.length + (entries.filter (fun e => env.loadOk e.2)).length := by
  induction entries with
  | nil => intro svc next _ _; simp [Sidekick.bootstrap_loop]
  | cons hd tl ih =>
    intro svc next hdisj hnodup
    obtain ⟨k, p⟩ := hd
    simp only [List.map_cons, List.nodup_cons] at hnodup
    have hk : dictGet svc.retriever_registry k = none := hdisj (k, p) (List.mem_cons_self _ _)
    by_cases hl : env.loadOk p = true
    · have htl : ∀ e ∈ tl,
          dictGet (svc.register_retriever k next p).retriever_registry e.1 = none := by
        intro e he
        have hne : k ≠ e.1 := by
          intro hEq
          exact hnodup.1 (hEq ▸ List.mem_map_of_mem Prod.fst he)
        rw [RetrievalService.register_retriever]
        simp only
        rw [dictGet_dictSet_ne _ _ _ _ hne]
        exact hdisj e (List.mem_cons_of_mem _ he)
      have hrec := ih (svc.register_retriever k next p) (next + 1) htl hnodup.2
      simp only [Sidekick.bootstrap_loop, hl, if_true]
      rw [hrec, RetrievalService.register_retriever]
      simp only
      rw [length_dictSet_of_get_none _ _ _ hk]
      simp [List.filter_cons, hl]
      omega
    · have hl' : env.loadOk p = false := by
        cases hx : env.loadOk p with
        | true => exact absurd hx hl
        | false => rfl
      have hrec := ih svc next (fun e he => hdisj e (List.mem_cons_of_mem _ he)) hnodup.2
      simp only [Sidekick.bootstrap_loop, hl', if_false, Bool.false_eq_true]
      rw [hrec]
      simp [List.filter_cons, hl']

theorem bootstrap_loop_get_none (env : BootstrapEnv) (entries : List (String × String)) :
    ∀ svc : RetrievalService, ∀ next : Nat, ∀ k : String,
    dictGet svc.retriever_registry k = none →
    (∀ e ∈ entries, e.1 = k → env.loadOk e.2 = false) →
    dictGet (Sidekick.bootstrap_loop env svc next entries).1.retriever_registry k = none := by
  induction entries with
  | nil => intro svc next k h0 _; simpa [Sidekick.bootstrap_loop] using h0
  | cons hd tl ih =>
    intro svc next k h0 hk
    obtain ⟨k', p⟩ := hd
    by_cases hl : env.loadOk p = true
    · have hne : k' ≠ k := by
        intro hEq
        have := hk (k', p) (List.mem_cons_self _ _) hEq
        rw [hl] at this
        simp at this
      simp only [Sidekick.bootstrap_loop, hl, if_true]
      apply ih
      · rw [RetrievalService.register_retriever]
        simp only
        rw [dictGet_dictSet_ne _ _ _ _ hne]
        exact h0
      · exact fun e he hEq => hk e (List.mem_cons_of_mem _ he) hEq
    · have hl' : env.loadOk p = false := by
        cases hx : env.loadOk p with
        | true => exact absurd hx hl
        | false => rfl
      simp only [Sidekick.bootstrap_loop, hl', if_false, Bool.false_eq_true]
      exact ih svc next k h0 (fun e he hEq => hk e (List.mem_cons_of_mem _ he) hEq)

/-- Claim C6: starting from an empty registry, bootstrap registers exactly
one retriever per manifest entry whose persist location loads; with every
entry loadable that is exactly N retrievers, and with exactly one entry
unloadable it is exactly N-1 retrievers, the failing entry is skipped
(its key stays unregistered) and nothing is raised (the embedding is a
total function, mirroring the per-entry try/except). -/
theorem C6_bootstrap_recovery (env : BootstrapEnv) (st : SidekickM)
    (hfresh : st.retrieval.retriever_registry = [])
    (hnodup : (st.manifest.map Prod.fst).Nodup) :
    ((∀ e ∈ st.manifest, env.loadOk e.2 = true) →
      (Sidekick.bootstrap_retrievers_from_manifest env st).retrieval.retriever_registry.length =
        st.manifest.length) ∧
    (∀ pre post : List (String × String), ∀ kbad pbad : String,
      st.manifest = pre ++ (kbad, pbad) :: post →
      env.loadOk pbad = false →
      (∀ e ∈ pre, env.loadOk e.2 = true) →
      (∀ e ∈ post, env.loadOk e.2 = true) →
      (Sidekick.bootstrap_retrievers_from_manifest env st).retrieval.retriever_registry.length =
          st.manifest.length - 1 ∧
        dictGet (Sidekick.bootstrap_retrievers_from_manifest env st).retrieval.retriever_registry
          kbad = none) := by
  have hdisj : ∀ e ∈ st.manifest, dictGet st.retrieval.retriever_registry e.1 = none := by
    intro e _
    rw [hfresh]
    rfl
  have hlen := bootstrap_loop_length env st.manifest st.retrieval st.nextHandle hdisj hnodup
  constructor
  · intro hall
    have hfilter : st.manifest.filter (fun e => env.loadOk e.2) = st.manifest :=
      List.filter_eq_self.mpr hall
    cases hm : st.manifest with
    | nil => simp [Sidekick.bootstrap_retrievers_from_manifest, hm, hfresh]
    | cons a l =>
      have hne : st.manifest.isEmpty = false := by rw [hm]; rfl
      simp only [Sidekick.bootstrap_retrievers_from_manifest, hne, Bool.false_eq_true,
        if_false]
      rw [hlen, hfresh, hfilter]
      simp [hm]
  · intro pre post kbad pbad hsplit hbad hpre hpost
    have hne : st.manifest.isEmpty = false := by
      rw [hsplit]
      cases pre <;> rfl
    have hfilter : st.manifest.filter (fun e => env.loadOk e.2) = pre ++ post := by
      rw [hsplit, List.filter_append, List.filter_cons]
      rw [List.filter_eq_self.mpr hpre, List.filter_eq_self.mpr hpost, hbad]
      simp
    have hlensplit : st.manifest.length = pre.length + post.length + 1 := by
      rw [hsplit]
      simp
      omega
    have hknotin : ∀ e ∈ st.manifest, e.1 = kbad → env.loadOk e.2 = false := by
      have hnodup' := hnodup
      rw [hsplit] at hnodup'
      simp only [List.map_append, List.map_cons] at hnodup'
      rw [List.nodup_append] at hnodup'
      intro e he hEq
      rw [hsplit] at he
      rcases List.mem_append.mp he with hin | hin
      · exfalso
        have hmem : kbad ∈ pre.map Prod.fst := hEq ▸ List.mem_map_of_mem Prod.fst hin
        exact hnodup'.2.2 hmem (List.mem_cons_self _ _)
      · rcases List.mem_cons.mp hin with hEq2 | hin2
        · rw [hEq2]
          exact hbad
        · exfalso
          have hmem : kbad ∈ post.map Prod.fst := hEq ▸ List.mem_map_of_mem Prod.fst hin2
          exact (List.nodup_cons.mp hnodup'.2.1).1 hmem
    constructor
    · simp only [Sidekick.bootstrap_retrievers_from_manifest, hne, Bool.false_eq_true,
        if_false]
      rw [hlen, hfresh, hfilter]
      simp only [List.length_nil, List.length_append, Nat.zero_add]
      omega
    · simp only [Sidekick.bootstrap_retrievers_from_manifest, hne, Bool.false_eq_true,
        if_false]
      apply bootstrap_loop_get_none
      · rw [hfresh]
        rfl
      · exact hknotin

theorem C6_bootstrap_recovery_witness :
    ((Sidekick.bootstrap_retrievers_from_manifest ⟨fun p => !(p == "bad")⟩
        ⟨⟨[], [], none, 5⟩, [("k1", "p1"), ("k2", "p2")], ["p1", "p2"], 0⟩
      ).retrieval.retriever_registry.length = 2) ∧
    ((Sidekick.bootstrap_retrievers_from_manifest ⟨fun p => !(p == "bad")⟩
        ⟨⟨[], [], none, 5⟩, [("k1", "p1"), ("k2", "bad"), ("k3", "p3")], ["p1", "p3"], 0⟩
      ).retrieval.retriever_registry.length = 2) ∧
    (dictGet (Sidekick.bootstrap_retrievers_from_manifest ⟨fun p => !(p == "bad")⟩
        ⟨⟨[], [], none, 5⟩, [("k1", "p1"), ("k2", "bad"), ("k3", "p3")], ["p1", "p3"], 0⟩
      ).retrieval.retriever_registry "k2" = none) := by
  refine ⟨(C6_bootstrap_recovery _ _ rfl (by decide)).1 (by decide), ?_, ?_⟩
  · exact ((C6_bootstrap_recovery _ _ rfl (by decide)).2 [("k1", "p1")] [("k3", "p3")]
      "k2" "bad" rfl rfl (by decide) (by decide)).1
  · exact ((C6_bootstrap_recovery _ _ rfl (by decide)).2 [("k1", "p1")] [("k3", "p3")]
      "k2" "bad" rfl rfl (by decide) (by decide)).2

/-- Claim C4, counterexample: in the graph assembled by build_graph
(src/graph_builder.py), a state whose latest assistant message carries an
EMPTY tool_calls list (the attribute exists but holds zero tool-call
requests, as on every plain AIMessage) is routed from the worker node to
the tools node — so the tools node is entered although the latest
assistant message carries no tool-call request, refuting the claimed
"if and only if" for that variant of the agent graph. -/
theorem C4_worker_routing_counterexample :
    build_graph_worker_route
      ⟨[mkHumanMessage "hi", mkAIMessage "Done." []], "t1", "s1",
        some "Answer fully", none, [], false, false⟩ = some "tools" ∧
    (mkAIMessage "Done." []).tool_calls = [] := by
  constructor <;> rfl

/-- Claim C4 as amended: in GraphBuilder.should_continue
(src/core/graph.py) and in the duplicated Sidekick.should_continue
(src/sidekick.py) the tools node is entered from the worker iff the latest
message has a tool_calls attribute with at least one entry, and otherwise
the transition goes to the evaluator; after the tools node, control
unconditionally returns to the worker in the compiled core graph.  The
build_graph variant (src/graph_builder.py), however, routes to tools iff
the latest message merely HAS a tool_calls attribute, even when the list
is empty. -/
theorem C4_worker_routing_amended (s : SidekickState) (m : Message)
    (hlast : s.messages.getLast? = some m) :
    (GraphBuilder.should_continue s = some "tools" ↔
      m.tool_calls_attr = true ∧ m.tool_calls ≠ []) ∧
    (GraphBuilder.should_continue s = some "evaluator" ↔
      ¬(m.tool_calls_attr = true ∧ m.tool_calls ≠ [])) ∧
    VariantSidekick.should_continue s = GraphBuilder.should_continue s ∧
    (build_graph_worker_route s = some "tools" ↔ m.tool_calls_attr = true) ∧
    (∀ env : GraphEnv, ∀ st : SidekickState,
      (coreGraphStep env "tools" st).map Prod.fst = some "worker") := by
  have hsc : GraphBuilder.should_continue s =
      some (if m.tool_calls_attr && !m.tool_calls.isEmpty then "tools" else "evaluator") := by
    rw [GraphBuilder.should_continue, hlast, Option.map_some']
  have hbg : build_graph_worker_route s =
      some (if m.tool_calls_attr then "tools" else "evaluator") := by
    rw [build_graph_worker_route, hlast, Option.map_some']
  refine ⟨?_, ?_, ?_, ?_, ?_⟩
  · rw [hsc]
    by_cases ha : m.tool_calls_attr = true
    · by_cases hb : m.tool_calls = []
      · simp [ha, hb]
      · have hb' : m.tool_calls.isEmpty = false := by
          cases hc : m.tool_calls with
          | nil => exact absurd hc hb
          | cons x xs => rfl
        simp [ha, hb, hb']
    · have ha' : m.tool_calls_attr = false := by
        cases hx : m.tool_calls_attr with
        | true => exact absurd hx ha
        | false => rfl
      simp [ha', ha]
  · rw [hsc]
    by_cases ha : m.tool_calls_attr = true
    · by_cases hb : m.tool_calls = []
      · simp [ha, hb]
      · have hb' : m.tool_calls.isEmpty = false := by
          cases hc : m.tool_calls with
          | nil => exact absurd hc hb
          | cons x xs => rfl
        simp [ha, hb, hb']
    · have ha' : m.tool_calls_attr = false := by
        cases hx : m.tool_calls_attr with
        | true => exact absurd hx ha
        | false => rfl
      simp [ha', ha]
  · rw [VariantSidekick.should_continue, GraphBuilder.should_continue]
  · rw [hbg]
    by_cases ha : m.tool_calls_attr = true
    · simp [ha]
    · have ha' : m.tool_calls_attr = false := by
        cases hx : m.tool_calls_attr with
        | true => exact absurd hx ha
        | false => rfl
      simp [ha', ha]
  · intro env st
    simp [coreGraphStep]

theorem C4_worker_routing_witness :
    (GraphBuilder.should_continue
        ⟨[mkHumanMessage "hi", mkAIMessage "calling" ["search_documents"]], "t1", "s1",
          some "Answer fully", none, [], false, false⟩ = some "tools" ↔
      (mkAIMessage "calling" ["search_documents"]).tool_calls_attr = true ∧
        (mkAIMessage "calling" ["search_documents"]).tool_calls ≠ []) ∧
    (build_graph_worker_route
        ⟨[mkHumanMessage "hi", mkAIMessage "calling" ["search_documents"]], "t1", "s1",
          some "Answer fully", none, [], false, false⟩ = some "tools" ↔
      (mkAIMessage "calling" ["search_documents"]).tool_calls_attr = true) :=
  ⟨(C4_worker_routing_amended
      ⟨[mkHumanMessage "hi", mkAIMessage "calling" ["search_documents"]], "t1", "s1",
        some "Answer fully", none, [], false, false⟩
      (mkAIMessage "calling" ["search_documents"]) (by rfl)).1,
    (C4_worker_routing_amended
      ⟨[mkHumanMessage "hi", mkAIMessage "calling" ["search_documents"]], "t1", "s1",
        some "Answer fully", none, [], false, false⟩
      (mkAIMessage "calling" ["search_documents"]) (by rfl)).2.2.2.1⟩

/-- Claim C9: every execution of GraphBuilder.evaluator_node
(src/core/graph.py) returns an update carrying exactly one assistant
message, prefixed with the evaluation marker, the two flags copied from
the structured LLM result, and exactly one evaluation record made of the
full structured result plus a timestamp — BUT the update key
evaluation_history has no corresponding field in the SidekickState of
src/core/state.py (unlike the duplicated src/state.py variant), so the
record cannot be appended to any evaluation-history list of the core
graph's state: the code contradicts its own intent. -/
theorem C9_evaluator_postcondition_vs_core_state (env : GraphEnv) (s : SidekickState) :
    (GraphBuilder.evaluator_node env s).messages =
      [mkAIMessage ("💭 Evaluation: " ++ (GraphBuilder.evaluator_result env s).feedback) []] ∧
    (GraphBuilder.evaluator_node env s).messages.length = 1 ∧
    (∀ m ∈ (GraphBuilder.evaluator_node env s).messages,
      m.mtype = MsgType.ai ∧ ∃ rest, m.content = "💭 Evaluation: " ++ rest) ∧
    (GraphBuilder.evaluator_node env s).criteria_met =
      some (GraphBuilder.evaluator_result env s).success_criteria_met ∧
    (GraphBuilder.evaluator_node env s).needs_user_input =
      some (GraphBuilder.evaluator_result env s).user_input_needed ∧
    (GraphBuilder.evaluator_node env s).evaluation_history =
      [⟨GraphBuilder.evaluator_result env s, env.nowIso⟩] ∧
    "evaluation_history" ∈ evaluator_node_update_keys ∧
    "evaluation_history" ∉ core_state_fields ∧
    "evaluation_history" ∈ variant_state_fields := by
  refine ⟨rfl, rfl, ?_, rfl, rfl, rfl, by decide, by decide, by decide⟩
  intro m hm
  rw [GraphBuilder.evaluator_node] at hm
  simp only [List.mem_singleton] at hm
  subst hm
  exact ⟨rfl, (GraphBuilder.evaluator_result env s).feedback, rfl⟩

/-- Helper scripted environment for the terminating run of claim C5: the
worker always answers without tool calls and the evaluator immediately
reports the success criteria met. -/
def scriptedEnv : GraphEnv :=
  ⟨fun _ => mkAIMessage "The capital of France is Paris." [],
    fun _ => ⟨"The answer is complete.", true, false, 1⟩,
    fun c => ⟨MsgType.tool, c, false, []⟩,
    "2026-01-01 00:00", "2026-01-01T00:00:00"⟩

/-- Initial state of the scripted run of claim C5. -/
def scriptedInit : SidekickState :=
  ⟨[mkHumanMessage "What is the capital of France?"], "t1", "s1",
    some "Answer fully", none, [], false, false⟩

/-- Claim C5: under a worker that never requests tools and an evaluator
whose structured output reports success_criteria_met=true on its first
invocation, the compiled core graph executes exactly one worker step and
one evaluator step, reaches the terminal end state, and the final-answer
extraction of Sidekick.run returns the content of the worker message, skipping
the marker-prefixed evaluator message.  HOWEVER, the first two conjuncts
record the wiring bug that prevents this run from ever happening in
src/core/sidekick.py: GraphBuilder.__init__ requires an `evaluator_llm`
parameter that Sidekick._build_graph_with_tools never passes, so building
the graph raises a TypeError before any node can execute. -/
theorem C5_termination_and_wiring_bug :
    "evaluator_llm" ∈ GraphBuilder.init_params ∧
    "evaluator_llm" ∉ Sidekick.build_graph_with_tools_kwargs ∧
    (runCoreGraph scriptedEnv 10 "worker" scriptedInit).1 = ["worker", "evaluator"] ∧
    (runCoreGraph scriptedEnv 10 "worker" scriptedInit).1.count "worker" = 1 ∧
    (runCoreGraph scriptedEnv 10 "worker" scriptedInit).1.count "evaluator" = 1 ∧
    (runCoreGraph scriptedEnv 10 "worker" scriptedInit).2.criteria_met = true ∧
    Sidekick.extract_final_answer (runCoreGraph scriptedEnv 10 "worker" scriptedInit).2.messages =
      "The capital of France is Paris." := by
  refine ⟨by decide, by decide, ?_, ?_, ?_, ?_, ?_⟩ <;> rfl

theorem index_directory_fresh_success (env : IndexEnv) (st : SidekickM) (directory : String)
    (cs co : Nat) (cks : List Document)
    (hval : env.validateDirectory (env.normalizePath directory) = true)
    (hreg : dictGet st.retrieval.retriever_registry
      (env.getAbsolutePath (env.normalizePath directory)) = none)
    (hdocs : (env.loadDocuments (env.normalizePath directory)).isEmpty = false)
    (hchunk : env.chunkDocuments
      (IndexingService.normalize_document_metadata env
        (env.loadDocuments (env.normalizePath directory))) cs co = Except.ok cks)
    (hcreate : env.createOk = true) :
    Sidekick.index_directory env st directory false cs co =
      ("✅ Indexed " ++ toString cks.length ++ " chunks from " ++
          toString (IndexingService.normalize_document_metadata env
            (env.loadDocuments (env.normalizePath directory))).length ++ " documents",
        { st with
            retrieval := st.retrieval.register_retriever
              (env.getAbsolutePath (env.normalizePath directory)) st.nextHandle
              (env.freshPersistDir (env.normalizePath directory)),
            manifest := dictSet st.manifest (env.getAbsolutePath (env.normalizePath directory))
              (env.freshPersistDir (env.normalizePath directory)),
            disk := diskAdd (env.freshPersistDir (env.normalizePath directory)) st.disk,
            nextHandle := st.nextHandle + 1 }) := by
  have hhas : st.retrieval.has_retriever (env.getAbsolutePath (env.normalizePath directory))
      = false := by
    simp [RetrievalService.has_retriever, dictContains, hreg]
  simp [Sidekick.index_directory, hval, hhas, Sidekick.force_clear,
    Sidekick.index_directory_body, hdocs, hchunk, IndexingService.create_vectorstore, hcreate]

theorem index_directory_force_success (env : IndexEnv) (st : SidekickM) (directory : String)
    (cs co : Nat) (cks : List Document) (pOld : String)
    (hval : env.validateDirectory (env.normalizePath directory) = true)
    (hvs : dictGet st.retrieval.vectorstore_paths
      (env.getAbsolutePath (env.normalizePath directory)) = some pOld)
    (hdocs : (env.loadDocuments (env.normalizePath directory)).isEmpty = false)
    (hchunk : env.chunkDocuments
      (IndexingService.normalize_document_metadata env
        (env.loadDocuments (env.normalizePath directory))) cs co = Except.ok cks)
    (hcreate : env.createOk = true) :
    Sidekick.index_directory env st directory true cs co =
      ("✅ Indexed " ++ toString cks.length ++ " chunks from " ++
          toString (IndexingService.normalize_document_metadata env
            (env.loadDocuments (env.normalizePath directory))).length ++ " documents",
        { retrieval :=
            RetrievalService.register_retriever
              ⟨(dictPop st.retrieval.retriever_registry
                  (env.getAbsolutePath (env.normalizePath directory))).2,
                (dictPop st.retrieval.vectorstore_paths
                  (env.getAbsolutePath (env.normalizePath directory))).2,
                st.retrieval.current_folder, st.retrieval.default_k⟩
              (env.getAbsolutePath (env.normalizePath directory)) st.nextHandle
              (env.freshPersistDir (env.normalizePath directory)),
          manifest := dictSet st.manifest (env.getAbsolutePath (env.normalizePath directory))
            (env.freshPersistDir (env.normalizePath directory)),
          disk := diskAdd (env.freshPersistDir (env.normalizePath directory))
            ((IndexingService.remove_vectorstore env.rmtreeOk st.disk pOld).2),
          nextHandle := st.nextHandle + 1 }) := by
  have hpop : (dictPop st.retrieval.vectorstore_paths
      (env.getAbsolutePath (env.normalizePath directory))).1 = some pOld := by
    rw [dictPop_fst, hvs]
  simp [Sidekick.index_directory, hval, Sidekick.force_clear,
    RetrievalService.unregister_retriever, hpop,
    Sidekick.index_directory_body, hdocs, hchunk, IndexingService.create_vectorstore, hcreate]

/-- Claim C2 as amended: after a successful index_directory(path) followed
by a successful index_directory(path, force_reindex=True), exactly one
manifest entry exists for the IndexKey and it maps to the new persist
location, and the retrieval registry holds exactly one registration for
the key — unconditionally; and PROVIDED the recursive deletion of the old
persisted location succeeds (shutil.rmtree does not raise inside
remove_vectorstore), the old location no longer exists on disk.  When that
deletion fails, remove_vectorstore catches the exception and returns
False, index_directory discards that result, and the old location survives
on disk while the forced reindex still reports success (see the
counterexample). -/
theorem C2_force_reindex_replaces
    (env₁ env₂ : IndexEnv) (st₀ : SidekickM) (directory nd key p₁ p₂ : String)
    (cs₁ co₁ cs₂ co₂ : Nat) (cks₁ cks₂ : List Document)
    (hnd₁ : env₁.normalizePath directory = nd)
    (hkey₁ : env₁.getAbsolutePath nd = key)
    (hp₁ : env₁.freshPersistDir nd = p₁)
    (hnd₂ : env₂.normalizePath directory = nd)
    (hkey₂ : env₂.getAbsolutePath nd = key)
    (hp₂ : env₂.freshPersistDir nd = p₂)
    (hval₁ : env₁.validateDirectory nd = true)
    (hval₂ : env₂.validateDirectory nd = true)
    (hreg₀ : dictGet st₀.retrieval.retriever_registry key = none)
    (hvs₀ : dictGet st₀.retrieval.vectorstore_paths key = none)
    (hman₀ : dictGet st₀.manifest key = none)
    (hdocs₁ : (env₁.loadDocuments nd).isEmpty = false)
    (hchunk₁ : env₁.chunkDocuments
      (IndexingService.normalize_document_metadata env₁ (env₁.loadDocuments nd)) cs₁ co₁ =
      Except.ok cks₁)
    (hcreate₁ : env₁.createOk = true)
    (hdisk₁ : p₁ ∉ st₀.disk)
    (hdocs₂ : (env₂.loadDocuments nd).isEmpty = false)
    (hchunk₂ : env₂.chunkDocuments
      (IndexingService.normalize_document_metadata env₂ (env₂.loadDocuments nd)) cs₂ co₂ =
      Except.ok cks₂)
    (hcreate₂ : env₂.createOk = true)
    (hne : p₂ ≠ p₁) :
    countKey (Sidekick.index_directory env₂
        (Sidekick.index_directory env₁ st₀ directory false cs₁ co₁).2
        directory true cs₂ co₂).2.manifest key = 1 ∧
    dictGet (Sidekick.index_directory env₂
        (Sidekick.index_directory env₁ st₀ directory false cs₁ co₁).2
        directory true cs₂ co₂).2.manifest key = some p₂ ∧
    countKey (Sidekick.index_directory env₂
        (Sidekick.index_directory env₁ st₀ directory false cs₁ co₁).2
        directory true cs₂ co₂).2.retrieval.retriever_registry key = 1 ∧
    (env₂.rmtreeOk p₁ = true →
      p₁ ∉ (Sidekick.index_directory env₂
        (Sidekick.index_directory env₁ st₀ directory false cs₁ co₁).2
        directory true cs₂ co₂).2.disk) := by
  subst hnd₁
  subst hkey₁
  subst hp₁
  subst hp₂
  have h1 := index_directory_fresh_success env₁ st₀ directory cs₁ co₁ cks₁ hval₁ hreg₀
    hdocs₁ hchunk₁ hcreate₁
  have hkey₂' : env₂.getAbsolutePath (env₂.normalizePath directory) =
      env₁.getAbsolutePath (env₁.normalizePath directory) := by rw [hnd₂, hkey₂]
  have hp₂' : env₂.freshPersistDir (env₂.normalizePath directory) =
      env₂.freshPersistDir (env₁.normalizePath directory) := by rw [hnd₂]
  have hval₂' : env₂.validateDirectory (env₂.normalizePath directory) = true := by
    rw [hnd₂]; exact hval₂
  have hdocs₂' : (env₂.loadDocuments (env₂.normalizePath directory)).isEmpty = false := by
    rw [hnd₂]; exact hdocs₂
  have hchunk₂' : env₂.chunkDocuments
      (IndexingService.normalize_document_metadata env₂
        (env₂.loadDocuments (env₂.normalizePath directory))) cs₂ co₂ = Except.ok cks₂ := by
    rw [hnd₂]; exact hchunk₂
  have hvs₁ : dictGet
      (Sidekick.index_directory env₁ st₀ directory false cs₁ co₁).2.retrieval.vectorstore_paths
      (env₂.getAbsolutePath (env₂.normalizePath directory)) =
      some (env₁.freshPersistDir (env₁.normalizePath directory)) := by
    rw [hkey₂', h1]
    exact dictGet_dictSet_self _ _ _
  have h2 := index_directory_force_success env₂
    (Sidekick.index_directory env₁ st₀ directory false cs₁ co₁).2 directory cs₂ co₂ cks₂
    (env₁.freshPersistDir (env₁.normalizePath directory)) hval₂' hvs₁ hdocs₂' hchunk₂' hcreate₂
  have hstate : (Sidekick.index_directory env₂
      (Sidekick.index_directory env₁ st₀ directory false cs₁ co₁).2
      directory true cs₂ co₂).2 =
      { retrieval :=
          ⟨dictSet st₀.retrieval.retriever_registry
              (env₁.getAbsolutePath (env₁.normalizePath directory)) (st₀.nextHandle + 1),
            dictSet st₀.retrieval.vectorstore_paths
              (env₁.getAbsolutePath (env₁.normalizePath directory))
              (env₂.freshPersistDir (env₁.normalizePath directory)),
            st₀.retrieval.current_folder, st₀.retrieval.default_k⟩,
        manifest := dictSet (dictSet st₀.manifest
            (env₁.getAbsolutePath (env₁.normalizePath directory))
            (env₁.freshPersistDir (env₁.normalizePath directory)))
          (env₁.getAbsolutePath (env₁.normalizePath directory))
          (env₂.freshPersistDir (env₁.normalizePath directory)),
        disk := diskAdd (env₂.freshPersistDir (env₁.normalizePath directory))
          ((IndexingService.remove_vectorstore env₂.rmtreeOk
            (diskAdd (env₁.freshPersistDir (env₁.normalizePath directory)) st₀.disk)
            (env₁.freshPersistDir (env₁.normalizePath directory))).2),
        nextHandle := st₀.nextHandle + 1 + 1 } := by
    rw [h2, h1]
    simp only [RetrievalService.register_retriever, hkey₂', hp₂']
    have hpopreg : (dictPop (dictSet st₀.retrieval.retriever_registry
        (env₁.getAbsolutePath (env₁.normalizePath directory)) st₀.nextHandle)
        (env₁.getAbsolutePath (env₁.normalizePath directory))).2 =
        st₀.retrieval.retriever_registry := by
      rw [dictPop_dictSet_of_get_none _ _ _ hreg₀]
    have hpopvs : (dictPop (dictSet st₀.retrieval.vectorstore_paths
        (env₁.getAbsolutePath (env₁.normalizePath directory))
        (env₁.freshPersistDir (env₁.normalizePath directory)))
        (env₁.getAbsolutePath (env₁.normalizePath directory))).2 =
        st₀.retrieval.vectorstore_paths := by
      rw [dictPop_dictSet_of_get_none _ _ _ hvs₀]
    simp only [hpopreg, hpopvs]
  refine ⟨?_, ?_, ?_, ?_⟩
  · rw [hstate]
    simp only
    rw [countKey_dictSet_of_get_some]
    · exact countKey_dictSet_of_get_none _ _ _ hman₀
    · rw [dictGet_dictSet_self]
      rfl
  · rw [hstate]
    simp only
    exact dictGet_dictSet_self _ _ _
  · rw [hstate]
    simp only
    exact countKey_dictSet_of_get_none _ _ _ hreg₀
  · intro hrm
    have hinner : diskAdd (env₁.freshPersistDir (env₁.normalizePath directory)) st₀.disk =
        env₁.freshPersistDir (env₁.normalizePath directory) :: st₀.disk := by
      rw [diskAdd, if_neg hdisk₁]
    have hremove : (IndexingService.remove_vectorstore env₂.rmtreeOk
        (env₁.freshPersistDir (env₁.normalizePath directory) :: st₀.disk)
        (env₁.freshPersistDir (env₁.normalizePath directory))).2 = st₀.disk := by
      rw [IndexingService.remove_vectorstore, if_pos (List.mem_cons_self _ _),
        if_pos hrm, diskRemove, if_pos rfl]
    rw [hstate]
    simp only
    rw [hinner, hremove, diskAdd]
    by_cases hmem : env₂.freshPersistDir (env₁.normalizePath directory) ∈ st₀.disk
    · rw [if_pos hmem]
      exact hdisk₁
    · rw [if_neg hmem]
      intro hcontra
      rcases List.mem_cons.mp hcontra with hEq | hin
      · exact hne hEq.symm
      · exact hdisk₁ hin

/-- Concrete indexing environment for the C2 witness: every path is a valid
directory containing one loadable text document, chunking is the identity,
vector-store creation succeeds at the given persist directory, and
shutil.rmtree succeeds. -/
def witnessIndexEnv (pd : String) : IndexEnv :=
  ⟨id, id, fun _ => true, fun _ => true, id, "t",
    fun _ => [⟨"/a/f.txt", "", "", "", "hello"⟩],
    fun ds _ _ => Except.ok ds, true, fun _ => pd, fun _ => true⟩

/-- Concrete environment for the C2 counterexample: identical to
witnessIndexEnv except that shutil.rmtree raises on every directory (as
with locked files), which remove_vectorstore catches. -/
def witnessIndexEnvLocked (pd : String) : IndexEnv :=
  ⟨id, id, fun _ => true, fun _ => true, id, "t",
    fun _ => [⟨"/a/f.txt", "", "", "", "hello"⟩],
    fun ds _ _ => Except.ok ds, true, fun _ => pd, fun _ => false⟩

/-- Claim C2, counterexample to the original statement: when shutil.rmtree
raises during the forced reindex, remove_vectorstore catches the exception
and returns False, and index_directory discards that result — so both
calls still return the ✅ success string (both are "successful" in the
sense of the claim), yet the old persisted location vdb1 still exists on
disk afterwards, refuting "the old persisted location no longer exists on
disk". -/
theorem C2_force_reindex_counterexample :
    (Sidekick.index_directory (witnessIndexEnv "vdb1")
        ⟨⟨[], [], none, 5⟩, [], [], 0⟩ "/a" false 600 20).1 =
      "✅ Indexed 1 chunks from 1 documents" ∧
    (Sidekick.index_directory (witnessIndexEnvLocked "vdb2")
        (Sidekick.index_directory (witnessIndexEnv "vdb1")
          ⟨⟨[], [], none, 5⟩, [], [], 0⟩ "/a" false 600 20).2
        "/a" true 600 20).1 = "✅ Indexed 1 chunks from 1 documents" ∧
    "vdb1" ∈ (Sidekick.index_directory (witnessIndexEnvLocked "vdb2")
        (Sidekick.index_directory (witnessIndexEnv "vdb1")
          ⟨⟨[], [], none, 5⟩, [], [], 0⟩ "/a" false 600 20).2
        "/a" true 600 20).2.disk := by
  refine ⟨rfl, rfl, ?_⟩
  decide

theorem C2_force_reindex_witness :
    countKey (Sidekick.index_directory (witnessIndexEnv "vdb2")
        (Sidekick.index_directory (witnessIndexEnv "vdb1")
          ⟨⟨[], [], none, 5⟩, [], [], 0⟩ "/a" false 600 20).2
        "/a" true 600 20).2.manifest "/a" = 1 ∧
    dictGet (Sidekick.index_directory (witnessIndexEnv "vdb2")
        (Sidekick.index_directory (witnessIndexEnv "vdb1")
          ⟨⟨[], [], none, 5⟩, [], [], 0⟩ "/a" false 600 20).2
        "/a" true 600 20).2.manifest "/a" = some "vdb2" ∧
    countKey (Sidekick.index_directory (witnessIndexEnv "vdb2")
        (Sidekick.index_directory (witnessIndexEnv "vdb1")
          ⟨⟨[], [], none, 5⟩, [], [], 0⟩ "/a" false 600 20).2
        "/a" true 600 20).2.retrieval.retriever_registry "/a" = 1 ∧
    "vdb1" ∉ (Sidekick.index_directory (witnessIndexEnv "vdb2")
        (Sidekick.index_directory (witnessIndexEnv "vdb1")
          ⟨⟨[], [], none, 5⟩, [], [], 0⟩ "/a" false 600 20).2
        "/a" true 600 20).2.disk := by
  have h := C2_force_reindex_replaces (witnessIndexEnv "vdb1") (witnessIndexEnv "vdb2")
    ⟨⟨[], [], none, 5⟩, [], [], 0⟩ "/a" "/a" "/a" "vdb1" "vdb2" 600 20 600 20 _ _
    rfl rfl rfl rfl rfl rfl rfl rfl rfl rfl rfl rfl rfl rfl (by decide) rfl rfl rfl (by decide)
  exact ⟨h.1, h.2.1, h.2.2.1, h.2.2.2 rfl⟩
